import Mathlib

/-!
Verification of the WooCommerce item-synchronisation core
(`woocommerce_fusion/tasks/sync_items.py`) against its natural-language
specification.  The Python functions are shallowly embedded as executable
Lean definitions: Python strings become `String`/`List Char`, fallible code
becomes `Except String`, database tables become explicit lists of rows, and
the WooCommerce remote (an external collaborator, specified only at its
interface) is modelled as explicit state threaded through the calls.
-/

namespace WooSync

/-! ### Character/string helpers (embedding of Python `str` primitives) -/

/-- Embedding of Python `str.strip` (leading whitespace removal half). -/
def dropLeadingWS (cs : List Char) : List Char :=
  cs.dropWhile (fun c => c.isWhitespace)

/-- Embedding of Python `str.strip`: remove leading and trailing whitespace. -/
def trimChars (cs : List Char) : List Char :=
  ((dropLeadingWS cs.reverse).reverse : List Char) |> dropLeadingWS

/-- Split a character list at every character satisfying `p`, keeping empty
pieces (mirrors splitting a Python string at each separator occurrence;
together with the caller-side skipping of empty parts this is equivalent to
`re.split(r"[,\s]+", ...)`). -/
def splitChars (p : Char → Bool) : List Char → List (List Char)
  | [] => [[]]
  | c :: rest =>
    match splitChars p rest with
    | [] => if p c then [[], [c]] else [[c]]
    | h :: t => if p c then [] :: h :: t else (c :: h) :: t

/-- Embedding of `re.split(r"[,\s]+", text.strip())` from `expand_years`
(empty parts are skipped by the caller's `if not part: continue`). -/
def splitTokens (text : String) : List String :=
  (splitChars (fun c => c = ',' || c.isWhitespace) (trimChars text.data)).map
    (fun l => String.mk l)

/-- Embedding of Python `part.split("-")` for the single-character separator. -/
def splitOnDash (cs : List Char) : List (List Char) :=
  splitChars (fun c => c = '-') cs

/-- Parse a nonempty all-digit character list as a natural number; `none`
otherwise.  Helper for the embedding of Python `int()`. -/
def digitsToNat? (cs : List Char) : Option Nat :=
  if cs = [] then none
  else if cs.all (fun c => c.isDigit) then
    some (cs.foldl (fun n c => n * 10 + (c.toNat - 48)) 0)
  else none

/-- Embedding of Python `int(s)` on the token strings reaching it in
`expand_years`: an optional sign followed by decimal digits; any other shape
raises `ValueError`, modelled as `none`. -/
def strToInt? (s : String) : Option Int :=
  match s.data with
  | '+' :: rest => (digitsToNat? rest).map (fun n => (n : Int))
  | '-' :: rest => (digitsToNat? rest).map (fun n => -(n : Int))
  | l => (digitsToNat? l).map (fun n => (n : Int))

/-- Total variant of `strToInt?` used as the sort key (`key=int`); the caller
only sorts after checking every element parses. -/
def toIntD (s : String) : Int :=
  (strToInt? s).getD 0

/-- Embedding of Python `range(a, b + 1)` over integers, as a list. -/
def intRange (a b : Int) : List Int :=
  (List.range (b + 1 - a).toNat).map (fun i => a + i)

/-! ### `expand_years` (Temporal Range Expander) -/

/-- Embedding of the nested `normalize` helper of `expand_years`:
a 2-character (after stripping) token gets a century prefix — taken from the
first two characters of `base` when `base` is given and 4 characters long,
and the fixed `"20"` otherwise. -/
def normalize (year : String) (base : Option String) : String :=
  let y := trimChars year.data
  if y.length = 2 then
    String.mk
      ((match base with
        | some b => if b.data.length = 4 then b.data.take 2 else ['2', '0']
        | none => ['2', '0']) ++ y)
  else String.mk y

/-- Embedding of one iteration of the `for part in parts` loop of
`expand_years`: the strings this part contributes to `results`, or the
`ValueError` the iteration raises (tuple-unpacking a `split("-")` of the
wrong arity, or `int()` on an unparsable range endpoint). -/
def processPart (part : String) : Except String (List String) :=
  if part = "" then .ok []
  else if part.data.contains '-' then
    match splitOnDash part.data with
    | [s, e] =>
      let s1 := normalize (String.mk s) none
      let e1 := normalize (String.mk e) (some s1)
      match strToInt? s1, strToInt? e1 with
      | some si, some ei => .ok ((intRange si ei).map (fun y => toString y))
      | _, _ => .error "invalid literal for int()"
    | _ => .error "too many values to unpack"
  else .ok [normalize part none]

/-- Embedding of `expand_years` (`sync_items.py`).  The final
`sorted(set(results), key=int)` applies `int` to every collected string and
raises `ValueError` if any is unparsable — modelled by the `all` guard —
then deduplicates and sorts numerically. -/
def expand_years (text : String) : Except String (List String) :=
  match (splitTokens text).foldlM (fun acc p => (processPart p).map (fun r => acc ++ r)) [] with
  | .error e => .error e
  | .ok results =>
    if results.all (fun s => (strToInt? s).isSome) then
      .ok (List.insertionSort (fun a b => toIntD a ≤ toIntD b) results.dedup)
    else .error "invalid literal for int()"

/-! ### Compatibility builder (`build_compatibility_data`) -/

/-- Embedding of `",".join(...)`. -/
def joinComma : List String → String
  | [] => ""
  | [x] => x
  | x :: y :: rest => x ++ "," ++ joinComma (y :: rest)

/-- Embedding of the per-row `try: expanded_years = ",".join(expand_years(row.years))
except: ...` in `build_compatibility_data`: a raised `ValueError` is caught and
logged, leaving the initial empty string. -/
def expandRowYears (years : String) : String :=
  match expand_years years with
  | .ok l => joinComma l
  | .error _ => ""

/-- One row of the `custom_compatibility` child table of an Item.  A missing
(`None`) field is embedded as the empty string, matching the `or ""` guards. -/
structure CompatibilityRow where
  brand : String
  model : String
  years : String
  fuel : String
  engine_size : String
deriving DecidableEq

/-- Embedding of `SynchroniseItem.translate_text`: look the source text up in
the `Translation` table (embedded as an association list) and fall back to the
untranslated text; empty input returns the empty string. -/
def translate_text (table : List (String × String)) (src : String) : String :=
  if src = "" then ""
  else
    match table.lookup src with
    | some t => if t = "" then src else t
    | none => src

/-- The five key-value pairs one compatibility row contributes to the
meta-data payload, mirroring one iteration of the
`for index, row in enumerate(compatibility_entries)` loop. -/
def compatRowMeta (table : List (String × String)) (index : Nat)
    (row : CompatibilityRow) : List (String × String) :=
  let expanded := if row.years ≠ "" then expandRowYears row.years else ""
  [("add_compactable_details_" ++ toString index ++ "_brand", translate_text table row.brand),
   ("add_compactable_details_" ++ toString index ++ "_model", translate_text table row.model),
   ("add_compactable_details_" ++ toString index ++ "_years", expanded),
   ("add_compactable_details_" ++ toString index ++ "_variant", row.fuel),
   ("add_compactable_details_" ++ toString index ++ "_engine_size", row.engine_size)]

/-- The enumerate-loop of `build_compatibility_data`, accumulating each row's
five meta entries in order. -/
def compatMetaBlocks (table : List (String × String)) (idx : Nat) :
    List CompatibilityRow → List (String × String)
  | [] => []
  | r :: rest => compatRowMeta table idx r ++ compatMetaBlocks table (idx + 1) rest

/-- Embedding of `SynchroniseItem.build_compatibility_data` after the
compatibility rows for the item (own rows, or inherited bundle-child rows)
have been resolved: returns the flattened meta payload and the row count,
with `([], 0)` for an empty row list. -/
def build_compatibility_data (table : List (String × String))
    (rows : List CompatibilityRow) : List (String × String) × Nat :=
  if rows.isEmpty then ([], 0)
  else (compatMetaBlocks table 0 rows, rows.length)

/-! ### Category resolver (`get_or_create_wc_category`)

The WooCommerce remote is an external collaborator; its category store is
modelled explicitly as the list of existing categories, threaded through the
calls, per the spec's interface description (`GET` list with a name search,
`POST` create returning the new id). -/

/-- Lower-case a string character-wise (embedding of Python `str.lower()`). -/
def lowerChars (s : String) : List Char :=
  s.data.map Char.toLower

/-- Whether `pat` occurs at the start of `s`. -/
def startsWithL : List Char → List Char → Bool
  | [], _ => true
  | _ :: _, [] => false
  | x :: xs, y :: ys => x = y && startsWithL xs ys

/-- Whether `pat` occurs as a contiguous run inside `s`. -/
def hasSubstrL (pat : List Char) : List Char → Bool
  | [] => startsWithL pat []
  | c :: rest => startsWithL pat (c :: rest) || hasSubstrL pat rest

/-- A category on the WooCommerce remote. -/
structure WCCategory where
  catId : Nat
  catName : String
  parent : Nat
deriving DecidableEq

/-- Modelled from the spec: the remote `GET products/categories?search=name`
endpoint, returning the categories whose name contains the query
case-insensitively (in particular every case-insensitive exact match). -/
def searchCats (store : List WCCategory) (query : String) : List WCCategory :=
  store.filter (fun c => hasSubstrL (lowerChars query) (lowerChars c.catName))

/-- Result of one `get_or_create_wc_category` call: the returned id, the
remote category store after the call, the next id the remote would assign,
and how many create (`POST`) calls were made. -/
structure CatCallResult where
  catId : Nat
  store : List WCCategory
  nextId : Nat
  createCalls : Nat
deriving DecidableEq

/-- Embedding of `SynchroniseItem.get_or_create_wc_category`: search the
remote for the name, return the id of the first case-insensitive exact
match, otherwise create the category (one `POST`, which the remote answers
with a fresh id) and return the new id. -/
def get_or_create_wc_category (store : List WCCategory) (nextId : Nat)
    (name : String) (parentId : Nat) : CatCallResult :=
  let existing := searchCats store name
  match existing.find? (fun c => lowerChars c.catName == lowerChars name) with
  | some c => ⟨c.catId, store, nextId, 0⟩
  | none => ⟨nextId, store ++ [⟨nextId, name, parentId⟩], nextId + 1, 1⟩

/-! ### Field mapper (`set_product_fields`) -/

/-- Scalar values of ERPNext document fields and JSON leaves. -/
inductive JScalar where
  | s (v : String)
  | n (v : Int)
  | b (v : Bool)
  | null
deriving DecidableEq

/-- A deserialized WooCommerce product payload: a semi-structured tree of
maps, lists and scalars (the Path Mapper's data model). -/
inductive JTree where
  | leaf (v : JScalar)
  | node (fields : List (String × JTree))
  | arr (xs : List JTree)

/-- One step of a JSONPath expression: field access or array index. -/
inductive PathStep where
  | field (k : String)
  | idx (i : Nat)
deriving DecidableEq

/-- First value bound to key `k` in an object's field list. -/
def lookupField (k : String) : List (String × JTree) → Option JTree
  | [] => none
  | kv :: rest => if kv.1 = k then some kv.2 else lookupField k rest

/-- Embedding of `jsonpath_expr.find(...)`: the list of nodes matched by the
path (at most one for the field/index paths modelled here). -/
def jfind (t : JTree) : List PathStep → List JTree
  | [] => [t]
  | .field k :: rest =>
    match t with
    | .node kvs =>
      match lookupField k kvs with
      | some u => jfind u rest
      | none => []
    | _ => []
  | .idx i :: rest =>
    match t with
    | .arr xs =>
      match xs.get? i with
      | some u => jfind u rest
      | none => []
    | _ => []

/-- Embedding of `jsonpath_expr.update(...)`: replace every node matched by
the path with `newV`, leaving the tree unchanged where the path does not
match. -/
def jupdate (t : JTree) (p : List PathStep) (newV : JTree) : JTree :=
  match p with
  | [] => newV
  | .field k :: rest =>
    match t with
    | .node kvs => .node (kvs.map (fun kv => if kv.1 = k then (kv.1, jupdate kv.2 rest newV) else kv))
    | other => other
  | .idx i :: rest =>
    match t with
    | .arr xs => .arr (xs.enum.map (fun jc => if jc.1 = i then jupdate jc.2 rest newV else jc.2))
    | other => other

/-- Python `==` between an ERPNext field value (a scalar) and a matched
WooCommerce node: true exactly when the node is an equal scalar leaf. -/
def treeEqScalar (t : JTree) (v : JScalar) : Bool :=
  match t with
  | .leaf w => w == v
  | _ => false

/-- The characters of `s` before the first `" | "` separator — embedding of
`map.erpnext_field_name.split(" | ")` followed by taking element `[0]`. -/
def takeBeforeBar : List Char → List Char
  | [] => []
  | ' ' :: '|' :: ' ' :: _ => []
  | c :: rest => c :: takeBeforeBar rest

/-- One configured field-map row on the WooCommerce Server. -/
structure ItemFieldMapEntry where
  erpnext_field_name : String
  woocommerce_field_name : List PathStep

/-- The ERPNext field name actually read for a map row. -/
def mappedFieldName (m : ItemFieldMapEntry) : String :=
  String.mk (takeBeforeBar m.erpnext_field_name.data)

/-- The `for map in wc_server.item_field_map` loop of `set_product_fields`,
threading the dirty flag and the (possibly updated) product tree;
`persistedName` is `woocommerce_product.name` (set iff the product already
exists), and a zero-match path on an existing product raises. -/
def setProductFieldsLoop (persistedName : Option String) (itemField : String → JScalar) :
    List ItemFieldMapEntry → Bool → JTree → Except String (Bool × JTree)
  | [], dirty, t => .ok (dirty, t)
  | m :: rest, dirty, t =>
    let localVal := itemField (mappedFieldName m)
    match jfind t m.woocommerce_field_name with
    | [] =>
      if persistedName.isSome then .error "Field not found in WooCommerce Product"
      else setProductFieldsLoop persistedName itemField rest dirty t
    | v :: _ =>
      if treeEqScalar v localVal then setProductFieldsLoop persistedName itemField rest dirty t
      else setProductFieldsLoop persistedName itemField rest true
        (jupdate t m.woocommerce_field_name (.leaf localVal))

/-- Embedding of `SynchroniseItem.set_product_fields`: returns whether the
product changed together with the resulting product tree (an empty field map
leaves the product untouched and reports no change). -/
def set_product_fields (persistedName : Option String) (itemField : String → JScalar)
    (fieldMap : List ItemFieldMapEntry) (tree : JTree) : Except String (Bool × JTree) :=
  setProductFieldsLoop persistedName itemField fieldMap false tree

/-! ### Remote push (`push_wc_product`) and the per-field-group pipeline -/

/-- Python `str(v)` on the scalar meta values. -/
def scalarToStr : JScalar → String
  | .s v => v
  | .n v => toString v
  | .b v => if v then "True" else "False"
  | .null => "None"

/-- One entry of the JSON payload assembled by `push_wc_product`. -/
inductive PayloadEntry where
  | field (k : String) (v : JScalar)
  | metaData (entries : List (String × String))
deriving DecidableEq

/-- Payload assembly in `push_wc_product`: keyword fields whose value is
`None` are dropped, and a meta dict becomes a single `meta_data` entry of
`key`/`str(value)` pairs. -/
def buildPayload (fields : List (String × Option JScalar))
    (meta : Option (List (String × JScalar))) : List PayloadEntry :=
  (fields.filterMap (fun kv => kv.2.map (fun v => PayloadEntry.field kv.1 v))) ++
    (match meta with
     | none => []
     | some m => [PayloadEntry.metaData (m.map (fun kv => (kv.1, scalarToStr kv.2)))])

/-- What the remote does with one `PUT` request: an HTTP response with a
status code and decoded JSON body, or a transport-level exception. -/
inductive WCOutcome where
  | response (status : Nat) (body : List (String × String))
  | transportError (msg : String)
deriving DecidableEq

/-- Embedding of `SynchroniseItem.push_wc_product`: an empty payload is not
sent at all; a response whose status is not 200/201 is logged and yields `{}`;
a transport exception is caught, logged and yields `{}`; only a 200/201
response returns its body.  The function is total: no failure propagates to
the caller. -/
def push_wc_product (fields : List (String × Option JScalar))
    (meta : Option (List (String × JScalar))) (outcome : WCOutcome) :
    List (String × String) :=
  let payload := buildPayload fields meta
  if payload.isEmpty then []
  else
    match outcome with
    | .response st body => if st = 200 ∨ st = 201 then body else []
    | .transportError _ => []

/-- One field-group push issued by `update_woocommerce_product` (sku, images,
description, attributes, stock, price, compatibility meta, ...): its payload
arguments and the outcome the remote produces for it. -/
structure PushGroup where
  fields : List (String × Option JScalar)
  meta : Option (List (String × JScalar))
  outcome : WCOutcome

/-- The straight-line sequence of `push_wc_product` calls in
`update_woocommerce_product`: each group is pushed in order; no group's
result is consulted before issuing the next. -/
def runPushSequence (groups : List PushGroup) : List (List (String × String)) :=
  groups.map (fun g => push_wc_product g.fields g.meta g.outcome)

/-! ### Reconciliation engine (`sync_wc_product_with_erpnext_item`,
`update_item`, `create_item`) -/

/-- The observable synchronisation actions of one reconciliation. -/
inductive SyncAction where
  | createWooCommerceProduct
  | createERPNextItem
  | updateWooCommerceProduct
  | writeERPNextItem
deriving DecidableEq

/-- Embedding of `SynchroniseItem.update_item`: the function logs and
returns immediately (`return  # Added this line bcs Woo to ERP not requred`),
so the ERPNext item is returned unchanged and no action is performed. -/
def update_item {Item : Type} (item : Item) : Item × List SyncAction :=
  (item, [])

/-- Embedding of `SynchroniseItem.create_item`: the function returns
immediately (`return  # added bcs no need to sync from woo-to-erp`), so no
ERPNext item is created and no action is performed. -/
def create_item : List SyncAction :=
  []

/-- Embedding of `SynchroniseItem.sync_wc_product_with_erpnext_item`: the
create/update decision.  With only the item present the WooCommerce product
is created; with only the product present `create_item` runs (a no-op); with
both present `update_woocommerce_product` always runs, and — inside the
always-true `10 == 10` guard, where the Remote-is-newer branch is commented
out — runs a second time when the WooCommerce `date_modified` is older than
the item's `modified`. -/
def sync_wc_product_with_erpnext_item (hasItem hasProduct : Bool)
    (wcDateModified itemModified : Nat) : List SyncAction :=
  if hasItem && !hasProduct then [.createWooCommerceProduct]
  else if hasProduct && !hasItem then create_item
  else if hasItem && hasProduct then
    [.updateWooCommerceProduct] ++
      (if (10 : Nat) = 10 then
        (if wcDateModified < itemModified then [.updateWooCommerceProduct] else [])
      else [])
  else []

/-! ### Bought-together recommendation (`update_woocommerce_product`) -/

/-- A `Sales Invoice Item` row (invoice name and the item it references),
with the table held in `modified desc` order. -/
structure SalesInvoiceItemRow where
  parent : String
  item_code : String
deriving DecidableEq

/-- An `Item WooCommerce Server` row: the owning item code and its
WooCommerce product id (unset until first push). -/
structure ItemWooServerRow where
  parent : String
  woocommerce_id : Option String
deriving DecidableEq

/-- The relational data the bought-together block reads. -/
structure SyncDB where
  sales_invoice_items : List SalesInvoiceItemRow
  item_wc_servers : List ItemWooServerRow
deriving DecidableEq

/-- Keep the first occurrence of each string, preserving order (the order of
`dict`/`Counter` keys, and of a `distinct=True` query). -/
def firstOccurrences (l : List String) : List String :=
  l.foldl (fun acc x => if acc.contains x then acc else acc ++ [x]) []

/-- Embedding of the invoices query: distinct parents of `Sales Invoice Item`
rows referencing the item, most recent first, capped at 1000. -/
def invoicesReferencing (db : SyncDB) (code : String) : List String :=
  (firstOccurrences
    ((db.sales_invoice_items.filter (fun r => r.item_code = code)).map
      (fun r => r.parent))).take 1000

/-- Embedding of the co-occurring items query: item codes of rows on those
invoices other than the current item (one entry per row, so multiplicity
counts occurrences). -/
def coOccurringItems (db : SyncDB) (code : String) (invoiceNames : List String) :
    List String :=
  (db.sales_invoice_items.filter
    (fun r => invoiceNames.contains r.parent && r.item_code ≠ code)).map
    (fun r => r.item_code)

/-- Embedding of `Counter(...).most_common(...)` without the cap: the distinct
codes in first-encounter order, stably sorted by descending occurrence
count (CPython's `most_common` sorts the insertion-ordered dict items by
count with a stable sort). -/
def mostCommon (l : List String) : List String :=
  List.insertionSort (fun a b => l.count b ≤ l.count a) (firstOccurrences l)

/-- Embedding of `frappe.db.get_value("Item WooCommerce Server",
{"parent": code, "woocommerce_id": ["is", "set"]}, "woocommerce_id")`. -/
def wc_id_of (db : SyncDB) (code : String) : Option String :=
  match db.item_wc_servers.find? (fun r => r.parent = code && r.woocommerce_id.isSome) with
  | some r => r.woocommerce_id
  | none => none

/-- Embedding of the bought-together block of `update_woocommerce_product`:
the list of WooCommerce ids pushed as `bundle_product_items`.
`randomOrder` is the `order_by="RAND()"` shuffle of the
`Item WooCommerce Server` table chosen by the database.  With transaction
history the overall top-3 co-occurring codes are computed first and only
then resolved to ids (codes without one are silently dropped); with no
history, or when none of the top-3 resolve, up to 3 random linked rows are
pushed instead. -/
def boughtTogetherIds (db : SyncDB) (code : String)
    (randomOrder : List ItemWooServerRow) : List String :=
  let invoices := invoicesReferencing db code
  let top_items := (mostCommon (coOccurringItems db code invoices)).take 3
  let wc_ids := if invoices.isEmpty then [] else top_items.filterMap (wc_id_of db)
  if invoices.isEmpty || wc_ids.isEmpty then
    ((randomOrder.filter (fun r => r.woocommerce_id.isSome)).take 3).filterMap
      (fun r => r.woocommerce_id)
  else wc_ids

/-- The spec's description of the bought-together result for an item with
transaction history, stated in the spec's words: "exactly the 3 most
frequent co-occurring remote-linked codes, ties broken by first-encountered
order" — rank all co-occurring codes, restrict to those with a remote
identity, take the top 3, and resolve them. -/
def specBoughtTogetherIds (db : SyncDB) (code : String) : List String :=
  let invoices := invoicesReferencing db code
  (((mostCommon (coOccurringItems db code invoices)).filter
      (fun c => (wc_id_of db c).isSome)).take 3).filterMap (wc_id_of db)

/-! ### Entry-point validation (`run_item_sync`) -/

/-- How `run_item_sync` dispatches on its four optional starting-point
arguments. -/
inductive RunItemSyncDispatch where
  | invalidInput
  | productPath
  | itemPath
deriving DecidableEq

/-- Embedding of the argument validation and dispatch at the top of
`run_item_sync`: a `ValueError` is raised only when none of the four
parameters is supplied; otherwise the WooCommerce-product branch is taken
whenever a product or product name is present (regardless of the item
arguments), and the item branch only otherwise. -/
def run_item_sync_dispatch (item_code item woocommerce_product_name
    woocommerce_product : Bool) : RunItemSyncDispatch :=
  if !(item_code || item || woocommerce_product_name || woocommerce_product) then
    .invalidInput
  else if woocommerce_product || woocommerce_product_name then .productPath
  else .itemPath

/-- Outcome of the item branch of `run_item_sync`. -/
inductive ItemSyncGateResult where
  | skipped
  | noServersError
  | synced (serverIdxs : List Nat)
deriving DecidableEq

/-- Embedding of the validation gate in the item branch of `run_item_sync`:
the `Standard Selling` price is read first (`0.0` when no record exists),
then the two disable flags are checked, then the price (`not price or
price <= 0`), each returning `(None, None)` — and only past the gate is the
no-servers error raised and the per-server sync loop run. -/
def run_item_sync_item_branch (custom_disable_sync custom_disable_sync_if_not_in_stock : Nat)
    (priceRecord : Option ℚ) (servers : List Nat) : ItemSyncGateResult :=
  let price : ℚ := match priceRecord with | some p => p | none => 0
  if custom_disable_sync = 1 ∨ custom_disable_sync_if_not_in_stock = 1 then .skipped
  else if price = 0 ∨ price ≤ 0 then .skipped
  else if servers.isEmpty then .noServersError
  else .synced servers

/-! ### Sync-state store (`set_sync_hash`) -/

/-- The persistent per-server sync link (`Item WooCommerce Server` row):
last-sync marker, enabled flag, and the row's own `modified` audit
timestamp. -/
structure ItemWooServerLink where
  woocommerce_last_sync_hash : Option String
  enabled : Nat
  modified : Nat
deriving DecidableEq

/-- Embedding of `SynchroniseItem.set_sync_hash`: two `frappe.db.set_value`
writes with `update_modified=False` — store the product's `date_modified` as
the last-sync hash and unconditionally set `enabled` to 1, leaving the row's
`modified` timestamp untouched. -/
def set_sync_hash (link : ItemWooServerLink) (wcDateModified : Option String) :
    ItemWooServerLink :=
  { woocommerce_last_sync_hash := wcDateModified, enabled := 1, modified := link.modified }

/-- The effect of one completed synchronisation on the sync link, by path:
only the simple-product creation path (`create_woocommerce_product` on a
non-bundle item) ends in `set_sync_hash`; the bundle-creation path
(`create_bundle_product`), the update path (both sides present, handled by
`update_woocommerce_product`) and the product-only path (`create_item`, a
no-op) never call it. -/
def syncLinkEffect (hasItem hasProduct isBundle : Bool)
    (link : ItemWooServerLink) (wcDateModified : Option String) : ItemWooServerLink :=
  if hasItem && !hasProduct then
    (if isBundle then link else set_sync_hash link wcDateModified)
  else link

/-! ## Theorems -/

/-- C5: the Temporal Range Expander expands `"14-17"` to the four years
2014–2017 and `"2005, 09"` to 2005 and 2009; every successfully expanded
input yields a list that is numerically sorted ascending with no duplicate
entries; and a 2-digit token receives the fixed `"20"` century prefix,
unless it is the end of a range whose (normalized) start is 4 digits long,
in which case the start supplies the century. -/
theorem temporal_range_expander_spec :
    expand_years "14-17" = .ok ["2014", "2015", "2016", "2017"] ∧
    expand_years "2005, 09" = .ok ["2005", "2009"] ∧
    (∀ text l, expand_years text = .ok l →
      List.Pairwise (fun a b => toIntD a ≤ toIntD b) l ∧ l.Nodup) ∧
    (∀ t : String, (trimChars t.data).length = 2 →
      normalize t none = String.mk ('2' :: '0' :: trimChars t.data)) ∧
    (∀ t b : String, (trimChars t.data).length = 2 → b.data.length = 4 →
      normalize t (some b) = String.mk (b.data.take 2 ++ trimChars t.data)) := by
  refine ⟨rfl, rfl, ?_, ?_, ?_⟩
  · intro text l h
    unfold expand_years at h
    split at h
    · simp at h
    · split at h
      · injection h with h
        subst h
        constructor
        · haveI : IsTotal String (fun a b => toIntD a ≤ toIntD b) :=
            ⟨fun a b => le_total _ _⟩
          haveI : IsTrans String (fun a b => toIntD a ≤ toIntD b) :=
            ⟨fun a b c => le_trans⟩
          exact List.sorted_insertionSort _ _
        · exact (List.perm_insertionSort _ _).nodup_iff.mpr (List.nodup_dedup _)
      · simp at h
  · intro t ht
    simp [normalize, ht]
  · intro t b ht hb
    simp [normalize, ht, hb]

/-- Witness for C5: the sortedness/no-duplicates and century-prefix parts of
`temporal_range_expander_spec` instantiated at concrete inputs. -/
theorem temporal_range_expander_spec_witness :
    (List.Pairwise (fun a b => toIntD a ≤ toIntD b) ["2014", "2015", "2016", "2017"] ∧
      ["2014", "2015", "2016", "2017"].Nodup) ∧
    normalize "09" none = "2009" ∧
    normalize "02" (some "1998") = "1902" :=
  ⟨temporal_range_expander_spec.2.2.1 "14-17" ["2014", "2015", "2016", "2017"] rfl,
   (temporal_range_expander_spec.2.2.2.1 "09" (by decide)).trans (by decide),
   (temporal_range_expander_spec.2.2.2.2 "02" "1998" (by decide) (by decide)).trans (by decide)⟩

/-- C4 counterexample: for the year-spec `"14-17, abc"`, `expand_years`
raises a `ValueError` (at the final `key=int` sort) and the builder's
row-level handler replaces the whole expansion with the empty string — the
parsable tokens `14-17` are NOT still expanded, contradicting the claim
that only the unparsable tokens are dropped. -/
theorem compat_year_tokens_counterexample :
    expand_years "14-17, abc" = .error "invalid literal for int()" ∧
    expandRowYears "14-17, abc" = "" ∧
    expandRowYears "14-17, abc" ≠ "2014,2015,2016,2017" :=
  ⟨rfl, rfl, by decide⟩

theorem compatMetaBlocks_block (table : List (String × String)) :
    ∀ (rows : List CompatibilityRow) (idx i : Nat) (h : i < rows.length),
      ((compatMetaBlocks table idx rows).drop (5 * i)).take 5 =
        compatRowMeta table (idx + i) (rows.get ⟨i, h⟩)
  | [], _, i, h => absurd h (by simp)
  | r :: rest, idx, 0, _ => by
    have hlen : (compatRowMeta table idx r).length = 5 := rfl
    simp only [compatMetaBlocks, Nat.mul_zero, List.drop_zero, List.get]
    rw [List.take_left' hlen]
    simp
  | r :: rest, idx, j + 1, h => by
    have hlen : (compatRowMeta table idx r).length = 5 := rfl
    have h5 : 5 * (j + 1) = 5 + 5 * j := by ring
    simp only [compatMetaBlocks, h5, List.get]
    rw [← List.drop_drop, List.drop_left' hlen]
    rw [compatMetaBlocks_block table rest (idx + 1) j (Nat.lt_of_succ_lt_succ h)]
    congr 1
    omega

/-- C4 (amended): the builder boundary contains year-expansion failures —
`build_compatibility_data` always returns normally, each row's five meta
entries depend only on that row (a row whose year-spec fails does not abort
the builder and does not affect any other row's expansion), the reported
count is always the row count, and a row whose year-spec raises gets the
empty string for its whole `years` value (all its tokens are dropped, not
just the unparsable ones). -/
theorem compat_builder_fail_soft (table : List (String × String))
    (rows : List CompatibilityRow) (i : Nat) (h : i < rows.length) :
    ((build_compatibility_data table rows).1.drop (5 * i)).take 5 =
      compatRowMeta table i (rows.get ⟨i, h⟩) ∧
    (build_compatibility_data table rows).2 = rows.length ∧
    (∀ y e, expand_years y = .error e → expandRowYears y = "") := by
  refine ⟨?_, ?_, ?_⟩
  · cases rows with
    | nil => exact absurd h (by simp)
    | cons r rest =>
      have := compatMetaBlocks_block table (r :: rest) 0 i h
      simpa [build_compatibility_data] using this
  · cases rows with
    | nil => rfl
    | cons r rest => simp [build_compatibility_data]
  · intro y e he
    unfold expandRowYears
    rw [he]

/-- Witness for C4: the amended theorem at a concrete two-row table — the
second row's block is intact even though the first row's year-spec
`"14-17, abc"` is unparsable, and that failing spec yields the empty
string. -/
theorem compat_builder_fail_soft_witness :
    ((build_compatibility_data []
        [⟨"b", "m", "14-17, abc", "p", "1.6"⟩, ⟨"b2", "m2", "14-15", "d", "2.0"⟩]).1.drop
          (5 * 1)).take 5 =
      compatRowMeta [] 1 ⟨"b2", "m2", "14-15", "d", "2.0"⟩ ∧
    expandRowYears "14-17, abc" = "" :=
  ⟨(compat_builder_fail_soft []
      [⟨"b", "m", "14-17, abc", "p", "1.6"⟩, ⟨"b2", "m2", "14-15", "d", "2.0"⟩] 1
      (by decide)).1,
   (compat_builder_fail_soft []
      [⟨"b", "m", "14-17, abc", "p", "1.6"⟩, ⟨"b2", "m2", "14-15", "d", "2.0"⟩] 1
      (by decide)).2.2 "14-17, abc" "invalid literal for int()" rfl⟩

theorem startsWithL_self : ∀ l : List Char, startsWithL l l = true
  | [] => rfl
  | c :: rest => by simp [startsWithL, startsWithL_self rest]

theorem hasSubstrL_self : ∀ l : List Char, hasSubstrL l l = true
  | [] => rfl
  | c :: rest => by simp [hasSubstrL, startsWithL_self]

theorem mem_searchCats_of_lower_eq {c : WCCategory} {store : List WCCategory}
    {q : String} (hc : c ∈ store) (hq : lowerChars c.catName = lowerChars q) :
    c ∈ searchCats store q := by
  refine List.mem_filter.mpr ⟨hc, ?_⟩
  rw [← hq]
  exact hasSubstrL_self _

/-- C3: calling the Category Resolver twice in the same pass with
case-insensitively equal names returns the same category id both times and
performs at most one remote create call in total — the second call always
finds (by case-insensitive search of the remote store) either the
pre-existing category or the one the first call just created. -/
theorem category_resolver_idempotent (store : List WCCategory) (nextId : Nat)
    (name1 name2 : String) (p1 p2 : Nat)
    (h : lowerChars name1 = lowerChars name2) :
    (get_or_create_wc_category store nextId name1 p1).catId =
      (get_or_create_wc_category (get_or_create_wc_category store nextId name1 p1).store
        (get_or_create_wc_category store nextId name1 p1).nextId name2 p2).catId ∧
    (get_or_create_wc_category store nextId name1 p1).createCalls +
      (get_or_create_wc_category (get_or_create_wc_category store nextId name1 p1).store
        (get_or_create_wc_category store nextId name1 p1).nextId name2 p2).createCalls ≤ 1 := by
  have hsearch : searchCats store name2 = searchCats store name1 := by
    unfold searchCats
    rw [h]
  have hpred : (fun c : WCCategory => lowerChars c.catName == lowerChars name2) =
      (fun c : WCCategory => lowerChars c.catName == lowerChars name1) := by
    rw [h]
  unfold get_or_create_wc_category
  cases hf : (searchCats store name1).find?
      (fun c => lowerChars c.catName == lowerChars name1) with
  | some c =>
    simp only [hsearch, hpred, hf]
    simp
  | none =>
    simp only [hsearch, hpred, hf]
    have hnew : searchCats (store ++ [⟨nextId, name1, p1⟩]) name2 =
        searchCats store name2 ++ [⟨nextId, name1, p1⟩] := by
      unfold searchCats
      rw [List.filter_append]
      congr 1
      simp only [List.filter]
      rw [← h]
      rw [hasSubstrL_self]
    have hfind1 : List.find? (fun c : WCCategory => lowerChars c.catName == lowerChars name1)
        [⟨nextId, name1, p1⟩] = some ⟨nextId, name1, p1⟩ := by
      simp [List.find?]
    rw [hnew, List.find?_append, hsearch, hf, hfind1]
    simp

/-- Witness for C3: the resolver called twice on a store already holding a
"Tools" category, with the differently-cased names "tools" and "TOOLS" —
both calls return id 7 and no create call is made. -/
theorem category_resolver_idempotent_witness :
    (get_or_create_wc_category [⟨7, "Tools", 0⟩] 8 "tools" 0).catId =
      (get_or_create_wc_category (get_or_create_wc_category [⟨7, "Tools", 0⟩] 8 "tools" 0).store
        (get_or_create_wc_category [⟨7, "Tools", 0⟩] 8 "tools" 0).nextId "TOOLS" 0).catId ∧
    (get_or_create_wc_category [⟨7, "Tools", 0⟩] 8 "tools" 0).createCalls +
      (get_or_create_wc_category (get_or_create_wc_category [⟨7, "Tools", 0⟩] 8 "tools" 0).store
        (get_or_create_wc_category [⟨7, "Tools", 0⟩] 8 "tools" 0).nextId "TOOLS" 0).createCalls ≤ 1 :=
  category_resolver_idempotent [⟨7, "Tools", 0⟩] 8 "tools" "TOOLS" 0 0 (by decide)

theorem setProductFieldsLoop_noop (persistedName : Option String)
    (itemField : String → JScalar) (dirty : Bool) (tree : JTree) :
    ∀ fieldMap : List ItemFieldMapEntry,
      (∀ m ∈ fieldMap, ∃ v rest, jfind tree m.woocommerce_field_name = v :: rest ∧
        treeEqScalar v (itemField (mappedFieldName m)) = true) →
      setProductFieldsLoop persistedName itemField fieldMap dirty tree = .ok (dirty, tree)
  | [], _ => rfl
  | m :: rest, h => by
    obtain ⟨v, vs, hfind, heq⟩ := h m (List.mem_cons_self m rest)
    unfold setProductFieldsLoop
    rw [hfind]
    simp only [heq, if_true]
    exact setProductFieldsLoop_noop persistedName itemField dirty tree rest
      (fun m' hm' => h m' (List.mem_cons_of_mem m hm'))

/-- C7: when, for every configured field-map pair, the local field value
equals the value already present at the mapped path of the deserialized
product tree, `set_product_fields` reports no change and returns the
product tree unmodified — no path update is performed for any mapped
field. -/
theorem set_product_fields_noop (persistedName : Option String)
    (itemField : String → JScalar) (fieldMap : List ItemFieldMapEntry) (tree : JTree)
    (h : ∀ m ∈ fieldMap, ∃ v rest, jfind tree m.woocommerce_field_name = v :: rest ∧
      treeEqScalar v (itemField (mappedFieldName m)) = true) :
    set_product_fields persistedName itemField fieldMap tree = .ok (false, tree) :=
  setProductFieldsLoop_noop persistedName itemField false tree fieldMap h

/-- Witness for C7: a product tree whose `name` field and first-image `src`
already equal the mapped item fields — `set_product_fields` reports
`(False, unchanged tree)`. -/
theorem set_product_fields_noop_witness :
    set_product_fields (some "WC-11")
      (fun f => if f = "item_name" then .s "Widget" else .s "http://img/1.png")
      [⟨"item_name", [.field "name"]⟩,
       ⟨"image | ignored", [.field "images", .idx 0, .field "src"]⟩]
      (.node [("name", .leaf (.s "Widget")),
              ("images", .arr [.node [("src", .leaf (.s "http://img/1.png"))]])]) =
      .ok (false, .node [("name", .leaf (.s "Widget")),
              ("images", .arr [.node [("src", .leaf (.s "http://img/1.png"))]])]) := by
  apply set_product_fields_noop
  intro m hm
  cases hm with
  | head => exact ⟨_, _, rfl, rfl⟩
  | tail _ hm =>
    cases hm with
    | head => exact ⟨_, _, rfl, rfl⟩
    | tail _ hm => cases hm

/-- C8: remote push failures are contained at the call site and never abort
the rest of the update — `push_wc_product` returns the empty dict (instead
of raising) on any non-2xx response and on any transport exception, and the
straight-line push sequence of `update_woocommerce_product` runs every
field group regardless of the other groups' outcomes: group `i`'s result is
always exactly its own push's result. -/
theorem push_failure_isolated :
    (∀ fields meta st body, ¬(st = 200 ∨ st = 201) →
      push_wc_product fields meta (.response st body) = []) ∧
    (∀ fields meta msg, push_wc_product fields meta (.transportError msg) = []) ∧
    (∀ groups : List PushGroup, (runPushSequence groups).length = groups.length) ∧
    (∀ (groups : List PushGroup) (i : Nat),
      (runPushSequence groups).get? i =
        (groups.get? i).map (fun g => push_wc_product g.fields g.meta g.outcome)) := by
  refine ⟨?_, ?_, ?_, ?_⟩
  · intro fields meta st body hst
    unfold push_wc_product
    simp [hst]
  · intro fields meta msg
    unfold push_wc_product
    simp
  · intro groups
    unfold runPushSequence
    exact List.length_map _ _
  · intro groups i
    unfold runPushSequence
    exact List.get?_map _ _ _

/-- Witness for C8: a two-group sequence whose first push gets a 500
response and whose second gets a 200 response — the first yields the empty
dict and the second still executes and returns its body. -/
theorem push_failure_isolated_witness :
    push_wc_product [("sku", some (.s "ITM-1"))] none (.response 500 [("code", "err")]) = [] ∧
    (runPushSequence
      [⟨[("sku", some (.s "ITM-1"))], none, .response 500 [("code", "err")]⟩,
       ⟨[("description", some (.s "d"))], none, .response 200 [("id", "5")]⟩]).get? 1 =
      some [("id", "5")] := by
  constructor
  · exact push_failure_isolated.1 [("sku", some (.s "ITM-1"))] none 500 [("code", "err")]
      (by decide)
  · rw [push_failure_isolated.2.2.2]
    rfl

/-- C1: whenever both the ERPNext item and its WooCommerce product exist,
the engine runs `update_woocommerce_product` (pushing Local → Remote), and
it never propagates Remote → Local on any input: no reconciliation ever
writes or creates an ERPNext item (`update_item` returns its item unchanged
with no action, `create_item` performs no action), so the Remote-is-newer
branch — commented out inside the always-true guard — is unreachable. -/
theorem one_directional_sync_policy (wcDateModified itemModified : Nat) :
    SyncAction.updateWooCommerceProduct ∈
      sync_wc_product_with_erpnext_item true true wcDateModified itemModified ∧
    (∀ (hasItem hasProduct : Bool) (wm im : Nat),
      SyncAction.writeERPNextItem ∉ sync_wc_product_with_erpnext_item hasItem hasProduct wm im ∧
      SyncAction.createERPNextItem ∉ sync_wc_product_with_erpnext_item hasItem hasProduct wm im) ∧
    (∀ (Item : Type) (item : Item), update_item item = (item, [])) ∧
    create_item = [] := by
  refine ⟨?_, ?_, fun _ _ => rfl, rfl⟩
  · simp [sync_wc_product_with_erpnext_item]
  · intro hasItem hasProduct wm im
    cases hasItem <;> cases hasProduct <;>
      simp [sync_wc_product_with_erpnext_item, create_item]

/-- C6 counterexample: supplying both a Local starting point (`item_code`)
and a Remote one (`woocommerce_product_name`) does not fail with an
invalid-input error — `run_item_sync` silently takes the
WooCommerce-product branch, contradicting the claim that exactly one side
is required. -/
theorem entry_validation_counterexample :
    run_item_sync_dispatch true false true false = .productPath ∧
    RunItemSyncDispatch.productPath ≠ RunItemSyncDispatch.invalidInput := by
  decide

/-- C6 (amended): `run_item_sync` raises its invalid-input `ValueError`
exactly when none of the four starting-point parameters is supplied; when
both sides are supplied it proceeds anyway, with the Remote (product) side
taking precedence, and it takes the item branch only when no product-side
argument is given. -/
theorem entry_validation_amended : ∀ a b c d : Bool,
    (run_item_sync_dispatch a b c d = .invalidInput ↔
      a = false ∧ b = false ∧ c = false ∧ d = false) ∧
    ((c || d) = true → run_item_sync_dispatch a b c d = .productPath) ∧
    ((a || b) = true → (c || d) = false → run_item_sync_dispatch a b c d = .itemPath) := by
  decide

/-- Witness for C6: the amended dispatch behaviour at concrete argument
combinations — no arguments raises, item-only takes the item branch, and
item together with product takes the product branch. -/
theorem entry_validation_amended_witness :
    run_item_sync_dispatch false false false false = .invalidInput ∧
    run_item_sync_dispatch false true false false = .itemPath ∧
    run_item_sync_dispatch true false false true = .productPath :=
  ⟨(entry_validation_amended false false false false).1.mpr ⟨rfl, rfl, rfl, rfl⟩,
   (entry_validation_amended false true false false).2.2 rfl rfl,
   (entry_validation_amended true false false true).2.1 rfl⟩

/-- C9: on the item branch of `run_item_sync`, if either disable flag is
set, or there is no `Standard Selling` price record, or the recorded price
is zero or negative, the call returns `(None, None)` — skipping before the
no-servers check (the result is `skipped` even for an empty server list)
and before any per-server synchronisation work or remote call. -/
theorem pre_sync_validation_gate (d1 d2 : Nat) (priceRecord : Option ℚ)
    (servers : List Nat)
    (h : d1 = 1 ∨ d2 = 1 ∨ priceRecord = none ∨ ∃ p, priceRecord = some p ∧ p ≤ 0) :
    run_item_sync_item_branch d1 d2 priceRecord servers = .skipped := by
  unfold run_item_sync_item_branch
  rcases h with h | h | h | ⟨p, hp, hple⟩
  · rw [if_pos (Or.inl h)]
  · rw [if_pos (Or.inr h)]
  · subst h
    by_cases hflag : d1 = 1 ∨ d2 = 1
    · rw [if_pos hflag]
    · rw [if_neg hflag, if_pos (Or.inl rfl)]
  · subst hp
    by_cases hflag : d1 = 1 ∨ d2 = 1
    · rw [if_pos hflag]
    · rw [if_neg hflag, if_pos (Or.inr hple)]

/-- Witness for C9: the gate at concrete inputs — disable flag set, zero
price with an empty server list, and a missing price record. -/
theorem pre_sync_validation_gate_witness :
    run_item_sync_item_branch 1 0 (some 5) [1, 2] = .skipped ∧
    run_item_sync_item_branch 0 0 (some 0) [] = .skipped ∧
    run_item_sync_item_branch 0 0 none [1] = .skipped :=
  ⟨pre_sync_validation_gate 1 0 (some 5) [1, 2] (Or.inl rfl),
   pre_sync_validation_gate 0 0 (some 0) []
     (Or.inr (Or.inr (Or.inr ⟨0, rfl, le_refl 0⟩))),
   pre_sync_validation_gate 0 0 none [1] (Or.inr (Or.inr (Or.inl rfl)))⟩

/-- C10 counterexample: a successful run of the update path (both sides
present) never calls `set_sync_hash`, so a sync link that was disabled
before the sync is still disabled afterwards — contradicting the claim that
every successful completion sets the enabled flag to 1. -/
theorem sync_enable_flag_counterexample :
    syncLinkEffect true true false ⟨none, 0, 7⟩ (some "2024-01-01 10:00:00") =
      ⟨none, 0, 7⟩ ∧
    (syncLinkEffect true true false ⟨none, 0, 7⟩ (some "2024-01-01 10:00:00")).enabled ≠ 1 := by
  decide

/-- C10 (amended): `set_sync_hash` itself does unconditionally set the
link's enabled flag to 1 and stores the new marker without touching the
link's `modified` timestamp (`update_modified=False`), and it runs on the
simple-product creation path — but the update path (both sides present) and
the bundle-creation path complete without touching the link at all. -/
theorem sync_enable_flag_amended (link : ItemWooServerLink) (marker : Option String) :
    (set_sync_hash link marker).enabled = 1 ∧
    (set_sync_hash link marker).modified = link.modified ∧
    (set_sync_hash link marker).woocommerce_last_sync_hash = marker ∧
    syncLinkEffect true false false link marker = set_sync_hash link marker ∧
    (∀ isBundle : Bool, syncLinkEffect true true isBundle link marker = link) ∧
    syncLinkEffect false true false link marker = link ∧
    syncLinkEffect true false true link marker = link := by
  exact ⟨rfl, rfl, rfl, rfl, fun isBundle => by cases isBundle <;> rfl, rfl, rfl⟩

/-- Concrete relational data for the bought-together block: item `X` shares
invoices with `A` (3 times, no WooCommerce id), `B` (twice, id 55),
`C` (twice, id 66) and `D` (once, id 77). -/
def boughtTogetherExampleDB : SyncDB :=
  ⟨[⟨"I1", "X"⟩, ⟨"I1", "A"⟩, ⟨"I1", "B"⟩,
    ⟨"I2", "X"⟩, ⟨"I2", "A"⟩, ⟨"I2", "C"⟩,
    ⟨"I3", "X"⟩, ⟨"I3", "A"⟩, ⟨"I3", "B"⟩,
    ⟨"I4", "X"⟩, ⟨"I4", "C"⟩, ⟨"I4", "D"⟩],
   [⟨"A", none⟩, ⟨"B", some "55"⟩, ⟨"C", some "66"⟩, ⟨"D", some "77"⟩]⟩

/-- Concrete relational data where item `X` has transaction history but its
only co-occurring code `A` lacks a WooCommerce id, while the unrelated item
`Q` is remote-linked — exercising the random fallback with history
present. -/
def boughtTogetherColdTopDB : SyncDB :=
  ⟨[⟨"J1", "X"⟩, ⟨"J1", "A"⟩],
   [⟨"A", none⟩, ⟨"Q", some "99"⟩]⟩

/-- C2 counterexample: for item `X` in `boughtTogetherExampleDB`, the code
ranks ALL co-occurring codes first (`A`, `B`, `C` are the top 3, ties by
first encounter), then drops `A` for lacking a remote identity and pushes
only `[55, 66]` — whereas the claim's characterisation (the 3 most frequent
remote-linked codes, `B`, `C`, `D`) yields `[55, 66, 77]`. -/
theorem bought_together_counterexample :
    boughtTogetherIds boughtTogetherExampleDB "X" boughtTogetherExampleDB.item_wc_servers =
      ["55", "66"] ∧
    specBoughtTogetherIds boughtTogetherExampleDB "X" = ["55", "66", "77"] ∧
    boughtTogetherIds boughtTogetherExampleDB "X" boughtTogetherExampleDB.item_wc_servers ≠
      specBoughtTogetherIds boughtTogetherExampleDB "X" := by
  decide

theorem boughtTogetherRandomFallback_sound (db : SyncDB)
    (randomOrder : List ItemWooServerRow)
    (hperm : randomOrder.Perm db.item_wc_servers) :
    (((randomOrder.filter (fun r => r.woocommerce_id.isSome)).take 3).filterMap
        (fun r => r.woocommerce_id)).length ≤ 3 ∧
    ∀ wid ∈ ((randomOrder.filter (fun r => r.woocommerce_id.isSome)).take 3).filterMap
        (fun r => r.woocommerce_id),
      ∃ r ∈ db.item_wc_servers, r.woocommerce_id = some wid := by
  constructor
  · calc (((randomOrder.filter (fun r => r.woocommerce_id.isSome)).take 3).filterMap
          (fun r => r.woocommerce_id)).length
        ≤ ((randomOrder.filter (fun r => r.woocommerce_id.isSome)).take 3).length :=
          List.length_filterMap_le _ _
    _ ≤ 3 := by
          rw [List.length_take]
          exact min_le_left _ _
  · intro wid hwid
    obtain ⟨r, hr, hrid⟩ := List.mem_filterMap.mp hwid
    refine ⟨r, ?_, hrid⟩
    have hr1 : r ∈ randomOrder.filter (fun r => r.woocommerce_id.isSome) :=
      List.mem_of_mem_take hr
    have hr2 : r ∈ randomOrder := (List.mem_filter.mp hr1).1
    exact hperm.mem_iff.mp hr2

/-- C2 (amended): with transaction history the pushed list is the remote
identities of the remote-linked codes AMONG the overall top-3 most frequent
co-occurring codes (ties by first-encountered order) — possibly fewer than
3, since unlinked codes are dropped only after ranking; and with no
transaction history, or when history exists but none of the overall top 3
is linked, the push falls back to at most 3 identities drawn only from
rows that have a remote identity, sampled from the full catalog in the
database's random order. -/
theorem bought_together_amended (db : SyncDB) (code : String)
    (randomOrder : List ItemWooServerRow)
    (hperm : randomOrder.Perm db.item_wc_servers) :
    (invoicesReferencing db code ≠ [] →
      ((mostCommon (coOccurringItems db code (invoicesReferencing db code))).take 3).filterMap
          (wc_id_of db) ≠ [] →
      boughtTogetherIds db code randomOrder =
        ((mostCommon (coOccurringItems db code (invoicesReferencing db code))).take 3).filterMap
          (wc_id_of db)) ∧
    (invoicesReferencing db code = [] →
      (boughtTogetherIds db code randomOrder).length ≤ 3 ∧
      ∀ wid ∈ boughtTogetherIds db code randomOrder,
        ∃ r ∈ db.item_wc_servers, r.woocommerce_id = some wid) ∧
    (invoicesReferencing db code ≠ [] →
      ((mostCommon (coOccurringItems db code (invoicesReferencing db code))).take 3).filterMap
          (wc_id_of db) = [] →
      (boughtTogetherIds db code randomOrder).length ≤ 3 ∧
      ∀ wid ∈ boughtTogetherIds db code randomOrder,
        ∃ r ∈ db.item_wc_servers, r.woocommerce_id = some wid) := by
  refine ⟨?_, ?_, ?_⟩
  · intro hinv hids
    unfold boughtTogetherIds
    have hinv' : (invoicesReferencing db code).isEmpty = false := by
      cases hi : invoicesReferencing db code with
      | nil => exact absurd hi hinv
      | cons a l => rfl
    simp only [hinv', Bool.false_eq_true, if_false, if_neg]
    rw [if_neg]
    simp only [Bool.or_eq_true, List.isEmpty_iff]
    rintro (h | h)
    · exact absurd h (by simp)
    · exact hids h
  · intro hinv
    have hres : boughtTogetherIds db code randomOrder =
        ((randomOrder.filter (fun r => r.woocommerce_id.isSome)).take 3).filterMap
          (fun r => r.woocommerce_id) := by
      unfold boughtTogetherIds
      rw [hinv]
      rfl
    rw [hres]
    exact boughtTogetherRandomFallback_sound db randomOrder hperm
  · intro hinv hids
    have hinv' : (invoicesReferencing db code).isEmpty = false := by
      cases hi : invoicesReferencing db code with
      | nil => exact absurd hi hinv
      | cons a l => rfl
    have hres : boughtTogetherIds db code randomOrder =
        ((randomOrder.filter (fun r => r.woocommerce_id.isSome)).take 3).filterMap
          (fun r => r.woocommerce_id) := by
      unfold boughtTogetherIds
      simp only [hinv', Bool.false_eq_true, if_false, hids]
      rfl
    rw [hres]
    exact boughtTogetherRandomFallback_sound db randomOrder hperm

/-- Witness for C2: the amended theorem at concrete data — for item `X` in
`boughtTogetherExampleDB` (with history) the push equals the linked subset
of the overall top 3; for item `Z` there (no history) the random fallback
pushes at most 3 linked identities; and for item `X` in
`boughtTogetherColdTopDB` (history present, but no code of the overall top
3 linked) the random fallback likewise pushes at most 3 identities, all of
them from remote-linked rows. -/
theorem bought_together_amended_witness :
    boughtTogetherIds boughtTogetherExampleDB "X" boughtTogetherExampleDB.item_wc_servers =
      ((mostCommon (coOccurringItems boughtTogetherExampleDB "X"
          (invoicesReferencing boughtTogetherExampleDB "X"))).take 3).filterMap
        (wc_id_of boughtTogetherExampleDB) ∧
    (boughtTogetherIds boughtTogetherExampleDB "Z"
        boughtTogetherExampleDB.item_wc_servers).length ≤ 3 ∧
    ((boughtTogetherIds boughtTogetherColdTopDB "X"
        boughtTogetherColdTopDB.item_wc_servers).length ≤ 3 ∧
      ∀ wid ∈ boughtTogetherIds boughtTogetherColdTopDB "X"
          boughtTogetherColdTopDB.item_wc_servers,
        ∃ r ∈ boughtTogetherColdTopDB.item_wc_servers, r.woocommerce_id = some wid) :=
  ⟨(bought_together_amended boughtTogetherExampleDB "X"
      boughtTogetherExampleDB.item_wc_servers (List.Perm.refl _)).1
      (by decide) (by decide),
   ((bought_together_amended boughtTogetherExampleDB "Z"
      boughtTogetherExampleDB.item_wc_servers (List.Perm.refl _)).2.1 (by decide)).1,
   (bought_together_amended boughtTogetherColdTopDB "X"
      boughtTogetherColdTopDB.item_wc_servers (List.Perm.refl _)).2.2
      (by decide) (by decide)⟩

end WooSync
